import Mathlib

/-!
Verification of the particle boundary-interaction state machine and the
bed-shear-stress / resuspension engine of the opendrift fork
(models `bivalvelarvae.py` and `sedimentdrift3D.py`).

The state-machine operations are shallowly embedded per particle: every
operation in the source is a vectorized (whole-array) transformation whose
update of one particle row depends only on that row, the environment sample
at that row, the configuration scalars, and the `previous_lon/previous_lat`
arrays indexed by the particle's own ID.  Numbers that the source only
compares and assigns are modelled over `ℚ` (decidable), the transcendental
bed-shear formulas over `ℝ`.
-/

namespace Opendrift

/-- Particle status values.  `active` is the sole non-terminal state.
`retired` is the reason label used by `SedimentDrift3D.update` for the
maximum-age check, `died` the one used by `BivalveLarvae.increase_age_and_retire`. -/
inductive Status where
  | active
  | settled_on_coast
  | settled_on_bottom
  | died
  | seeded_on_land
  | outside
  | retired
  deriving DecidableEq, Repr

/-- One row of the parallel particle arrays: the fields of the element types
(`BivalveLarvaeObj` / `SedimentElement`) that the verified operations read or
write.  `moving` is the mobility flag (`self.elements.moving`, `1`/`0` in the
source, the spec's `movable`). -/
structure Particle where
  ID : Nat
  lon : ℚ
  lat : ℚ
  z : ℚ
  age_seconds : ℚ
  status : Status
  moving : Bool
  critical_shear_stress : ℚ
  deriving DecidableEq, Repr

/-- Modelled from the spec: the deactivation primitive of the external
framework (`basemodel.deactivate_elements`, not under `src/`).  Spec section 6:
it takes a selection mask and a reason label, records the reason and removes
the particle from further active processing; combined with the invariant of
spec section 3 that transitions are one-directional, only a particle whose
status is still `active` acquires the new reason. -/
def deactivate (p : Particle) (reason : Status) : Particle :=
  if p.status = Status.active then { p with status := reason } else p

/-- Rolling a particle back to its previous position:
`elements.lon[sel] = previous_lon[ID - 1]` (and the same for `lat`), exactly
as written in both rollback sites of `BivalveLarvae.interact_with_coastline`.
The previous-position arrays are indexed by `ID - 1` (IDs are 1-based). -/
def rollback (prevLon prevLat : Nat → ℚ) (p : Particle) : Particle :=
  { p with lon := prevLon (p.ID - 1), lat := prevLat (p.ID - 1) }

/-- Per-particle embedding of `BivalveLarvae.interact_with_coastline`
(bivalvelarvae.py lines 240-327), for a particle present in the working
arrays.  Inputs: the configuration scalar
`minAge = drift:min_settlement_age_seconds`, `firstSeeded = newly_seeded_IDs[0]`
(`none` when `newly_seeded_IDs is None`), the previous-position arrays, the
particle, and its `land_binary_mask` sample `L`.  Returns the updated particle
together with its updated `land_binary_mask` entry.  The source first
deactivates newly seeded on-land particles with reason `seeded_on_land`, then
for on-land particles either rolls back unconditionally (`minAge == 0`), or
rolls back the younger ones (clearing their mask) and deactivates the
remaining on-land ones (age at or above `minAge`) with reason
`settled_on_coast`. -/
def interact_with_coastline (minAge : ℚ) (firstSeeded : Option Nat)
    (prevLon prevLat : Nat → ℚ) (p : Particle) (L : Bool) : Particle × Bool :=
  let p1 := match firstSeeded with
    | some f => if L = true ∧ f ≤ p.ID then deactivate p Status.seeded_on_land else p
    | none => p
  if L = true then
    if minAge = 0 then
      (rollback prevLon prevLat p1, false)
    else if p1.age_seconds < minAge then
      (rollback prevLon prevLat p1, false)
    else
      (deactivate p1 Status.settled_on_coast, true)
  else
    (p1, L)

/-- Per-particle embedding of `BivalveLarvae.interact_with_seafloor`
(bivalvelarvae.py lines 148-175).  `d` is the particle's
`sea_floor_depth` sample (positive down).  Particles strictly below the
seafloor are z-clamped back to the seafloor when younger than
`drift:min_settlement_age_seconds`, and deactivated with reason
`settled_on_bottom` when at or above it. -/
def interact_with_seafloor (minAge d : ℚ) (p : Particle) : Particle :=
  if p.z < -d then
    if minAge ≤ p.age_seconds then deactivate p Status.settled_on_bottom
    else { p with z := -d }
  else p

/-- Per-particle embedding of `SedimentDrift3D.bottom_interaction`
(sedimentdrift3D.py lines 196-208).  `sfd` is the `seafloor_depth` argument
passed by the vertical-mixing loop, `d` the particle's `sea_floor_depth()`
sample.  Particles below the seafloor are z-clamped to it, and any particle
at or below `sfd` that is still moving gets `moving := false`; the status is
never touched. -/
def bottom_interaction (sfd d : ℚ) (p : Particle) : Particle :=
  let p1 := if p.z < -d then { p with z := -d } else p
  if p1.z ≤ sfd ∧ p1.moving = true then { p1 with moving := false } else p1

/-- Per-particle core of `SedimentDrift3D.sediment_resuspension`
(sedimentdrift3D.py lines 183-192): a particle with `moving == 0` whose
ambient `tau_cw_max` strictly exceeds its `critical_shear_stress` is lifted
to 1 cm above the seafloor and allowed to move again; all other particles
are untouched. -/
def sediment_resuspension_elem (tau d : ℚ) (p : Particle) : Particle :=
  if p.moving = false ∧ p.critical_shear_stress < tau then
    { p with z := -d + 1/100, moving := true }
  else p

/-- The configuration keys read or written by the embedded operations
(spec section 6: a scalar/boolean configuration store with named keys). -/
structure Config where
  coastline_action : String
  seafloor_action : String
  vertical_mixing : Bool
  vertical_advection : Bool
  resuspension : Bool
  max_age_seconds : Option ℚ
  min_settlement_age_seconds : ℚ
  deriving DecidableEq, Repr

/-- Embedding of `SedimentDrift3D.sediment_resuspension`
(sedimentdrift3D.py lines 162-194) at the population level: when
`drift:resuspension` is `True`, the method first overwrites the configuration
key `general:seafloor_action` with `lift_to_seafloor`, then resuspends the
selected particles; when the switch is off it does nothing.  `tau` and `d`
give each particle's `tau_cw_max` and `sea_floor_depth` sample by ID. -/
def sediment_resuspension (cfg : Config) (tau d : Nat → ℚ) (ps : List Particle) :
    Config × List Particle :=
  if cfg.resuspension = true then
    ({ cfg with seafloor_action := "lift_to_seafloor" },
      ps.map (fun p => sediment_resuspension_elem (tau p.ID) (d p.ID) p))
  else
    (cfg, ps)

/-- Per-particle embedding of the maximum-age check inside
`SedimentDrift3D.update` (sedimentdrift3D.py lines 145-149): when
`drift:max_age_seconds` is configured, particles whose age reaches it are
deactivated with reason `retired`. -/
def sediment_retire (maxAge : Option ℚ) (p : Particle) : Particle :=
  match maxAge with
  | some m => if m ≤ p.age_seconds then deactivate p Status.retired else p
  | none => p

/-- Western validity-domain bound of `increase_age_and_retire`:
`deactivate_elements(lon < W, reason='outside')` when the bound is set. -/
def checkW (W : Option ℚ) (p : Particle) : Particle :=
  match W with
  | some w => if p.lon < w then deactivate p Status.outside else p
  | none => p

/-- Eastern validity-domain bound: `deactivate_elements(lon > E, 'outside')`. -/
def checkE (E : Option ℚ) (p : Particle) : Particle :=
  match E with
  | some e => if e < p.lon then deactivate p Status.outside else p
  | none => p

/-- Southern validity-domain bound: `deactivate_elements(lat < S, 'outside')`. -/
def checkS (S : Option ℚ) (p : Particle) : Particle :=
  match S with
  | some s => if p.lat < s then deactivate p Status.outside else p
  | none => p

/-- Northern validity-domain bound: `deactivate_elements(lat > N, 'outside')`. -/
def checkN (N : Option ℚ) (p : Particle) : Particle :=
  match N with
  | some n => if n < p.lat then deactivate p Status.outside else p
  | none => p

/-- Per-particle embedding of `BivalveLarvae.increase_age_and_retire`
(bivalvelarvae.py lines 330-358): the age is increased by the step duration,
particles whose age reaches `drift:max_age_seconds` are deactivated with
reason `died`, and particles outside any configured validity-domain bound
(W, E, S, N, each optional and checked independently, in this order) are
deactivated with reason `outside`. -/
def increase_age_and_retire (dt : ℚ) (maxAge : Option ℚ)
    (dom : Option (Option ℚ × Option ℚ × Option ℚ × Option ℚ)) (p : Particle) :
    Particle :=
  let pa := { p with age_seconds := p.age_seconds + dt }
  let pb := match maxAge with
    | some m => if m ≤ pa.age_seconds then deactivate pa Status.died else pa
    | none => pa
  match dom with
  | none => pb
  | some (W, E, S, N) => checkN N (checkS S (checkE E (checkW W pb)))

/-- One invocation of a core entry point, with the environment samples and
configuration scalars it reads.  Environment samples (`land_binary_mask`,
`sea_floor_depth`, `tau_cw_max`, the `seafloor_depth` argument of
`bottom_interaction`) are given per particle ID. -/
inductive CoreOp where
  | coastline (minAge : ℚ) (firstSeeded : Option Nat)
      (prevLon prevLat : Nat → ℚ) (land : Nat → Bool)
  | seafloor (minAge : ℚ) (depth : Nat → ℚ)
  | bottom (sfd depth : Nat → ℚ)
  | resuspend (tau depth : Nat → ℚ)
  | retireBivalve (dt : ℚ) (maxAge : Option ℚ)
      (dom : Option (Option ℚ × Option ℚ × Option ℚ × Option ℚ))
  | retireSediment (maxAge : Option ℚ)

/-- Effect of one core entry point on one particle of the working arrays. -/
def applyOp : CoreOp → Particle → Particle
  | CoreOp.coastline a f pl pa lm, p => (interact_with_coastline a f pl pa p (lm p.ID)).1
  | CoreOp.seafloor a d, p => interact_with_seafloor a (d p.ID) p
  | CoreOp.bottom s d, p => bottom_interaction (s p.ID) (d p.ID) p
  | CoreOp.resuspend t d, p => sediment_resuspension_elem (t p.ID) (d p.ID) p
  | CoreOp.retireBivalve dt ma dom, p => increase_age_and_retire dt ma dom p
  | CoreOp.retireSediment ma, p => sediment_retire ma p

/-- Simulation state across steps: the working arrays (`self.elements`) and
the record of deactivated particles (`self.elements_deactivated`, retained
for output). -/
structure SimState where
  working : List Particle
  recorded : List Particle
  deriving DecidableEq, Repr

/-- Modelled from the spec: after each operation the external framework
(`basemodel.remove_deactivated_elements`, not under `src/`) moves every
particle whose status has left `active` from the working arrays to the output
record, where it is never processed again (spec section 3: destroyed -
logically removed from the active working set, but retained in the output
record - when `status` becomes terminal). -/
def removeDeactivated (s : SimState) : SimState :=
  { working := s.working.filter (fun p => p.status == Status.active),
    recorded := s.recorded ++ s.working.filter (fun p => ¬ p.status == Status.active) }

/-- One simulation substep: apply a core entry point to every working
particle, then remove the newly deactivated ones. -/
def stepOp (op : CoreOp) (s : SimState) : SimState :=
  removeDeactivated { working := s.working.map (applyOp op), recorded := s.recorded }

/-- A multi-step run: fold any sequence of core entry-point invocations. -/
def runOps (ops : List CoreOp) (s : SimState) : SimState :=
  ops.foldl (fun t op => stepOp op t) s

/-- Predicate on operations: every coastline invocation in the run uses
`min_settlement_age_seconds = 0` (the zero-age default of claim C5). -/
def zeroAgeCoastline : CoreOp → Prop
  | CoreOp.coastline a _ _ _ _ => a = 0
  | _ => True

/-- Sample active particle used by the witnesses. -/
def pSample : Particle :=
  { ID := 3, lon := 170, lat := -41, z := -2, age_seconds := 100,
    status := Status.active, moving := true, critical_shear_stress := 1/10 }

/-- Sample bottom-resting particle (`moving = false`) used by the witnesses. -/
def pResting : Particle :=
  { ID := 4, lon := 170, lat := -41, z := -5, age_seconds := 100,
    status := Status.active, moving := false, critical_shear_stress := 1/10 }

/-- Sample deactivated particle used by the witnesses. -/
def pDead : Particle :=
  { ID := 5, lon := 171, lat := -42, z := -1, age_seconds := 300,
    status := Status.died, moving := true, critical_shear_stress := 1/10 }

/-- Sample previous-longitude array used by the witnesses. -/
def prevLon0 : Nat → ℚ := fun _ => 168

/-- Sample previous-latitude array used by the witnesses. -/
def prevLat0 : Nat → ℚ := fun _ => -40

/-- Sample configuration with `drift:resuspension` enabled, used by the
witnesses. -/
def cfgOn : Config :=
  { coastline_action := "stranding", seafloor_action := "deactivate",
    vertical_mixing := true, vertical_advection := false, resuspension := true,
    max_age_seconds := none, min_settlement_age_seconds := 0 }

/-- Sample simulation state for the witnesses: one active working particle,
one recorded (deactivated) particle. -/
def s0 : SimState := { working := [pSample], recorded := [pDead] }

/-- Sample seafloor-interaction invocation for the witnesses (threshold 0,
uniform depth 5 m). -/
def opSea0 : CoreOp := CoreOp.seafloor 0 (fun _ => 5)

/-- Sample zero-age coastline invocation for the witnesses (everything on
land, no newly seeded particles). -/
def opCoast0 : CoreOp := CoreOp.coastline 0 none prevLon0 prevLat0 (fun _ => true)

/-- One Newton-style correction step of the dispersion solve
(`y - (y*tanh(y) - x)/(tanh(y) + y*(1 - tanh(y)^2))`, sedimentdrift3D.py
lines 319-324, one `t = tanh(y); y = y - ...` pair). -/
noncomputable def newtonKh (x y : ℝ) : ℝ :=
  y - (y * Real.tanh y - x) / (Real.tanh y + y * (1 - Real.tanh y ^ 2))

/-- Embedding of `qkhfs` (sedimentdrift3D.py lines 300-326) over the real
numbers: `x = w^2*h/g` with `g = 9.81`, seed `sqrt(x)` for `x < 1` and `x`
otherwise, then exactly three fixed correction steps, no convergence check. -/
noncomputable def qkhfs (w h : ℝ) : ℝ :=
  newtonKh (w ^ 2 * h / 9.81)
    (newtonKh (w ^ 2 * h / 9.81)
      (newtonKh (w ^ 2 * h / 9.81)
        (if w ^ 2 * h / 9.81 < 1 then Real.sqrt (w ^ 2 * h / 9.81)
         else w ^ 2 * h / 9.81)))

/-- The common value `qkhfs w h` for every pair with `w^2*h/9.81 = 49/100`
(the solver depends on its inputs only through `x`; the seed is
`sqrt(49/100) = 7/10`). -/
noncomputable def kh49 : ℝ :=
  newtonKh (49/100) (newtonKh (49/100) (newtonKh (49/100) (7/10)))

/-- Division instrumented for the IEEE edge case: `none` exactly when the
denominator is zero, where numpy would produce `inf`/`nan` (division by
zero) instead of raising. -/
noncomputable def divChk (a b : ℝ) : Option ℝ :=
  if b = 0 then none else some (a / b)

/-- Logarithm instrumented for the IEEE edge case: `none` on a non-positive
argument, where numpy `log` would produce `-inf` (log of zero) or `nan`. -/
noncomputable def logChk (a : ℝ) : Option ℝ :=
  if a ≤ 0 then none else some (Real.log a)

/-- Negative-exponent power instrumented for the IEEE edge case: `none` on a
zero base, where numpy `0.0 ** negative` produces `inf` (division by zero). -/
noncomputable def powChkNeg (e a : ℝ) : Option ℝ :=
  if a = 0 then none else some (a ^ e)

/-- One correction step of `qkhfs` with the division instrumented. -/
noncomputable def newtonChk (x y : ℝ) : Option ℝ :=
  (divChk (y * Real.tanh y - x) (Real.tanh y + y * (1 - Real.tanh y ^ 2))).map
    (fun q => y - q)

/-- Embedding of `qkhfs` with every division instrumented: `none` means the
source hits a division by zero on these inputs. -/
noncomputable def qkhfsChk (w h : ℝ) : Option ℝ :=
  (newtonChk (w ^ 2 * h / 9.81)
      (if w ^ 2 * h / 9.81 < 1 then Real.sqrt (w ^ 2 * h / 9.81)
       else w ^ 2 * h / 9.81)).bind
    (fun y1 => (newtonChk (w ^ 2 * h / 9.81) y1).bind
      (fun y2 => newtonChk (w ^ 2 * h / 9.81) y2))

/-- Embedding of `SedimentDrift3D.bedshearstress_current_wave`
(sedimentdrift3D.py lines 223-296) with every division, logarithm and
negative power instrumented: `rho_water = 1027`, `z0 = 0.001`,
`water_depth = |sea_floor_depth|`, `Cdrag = (0.4/(log(|wd/z0|)-1))^2`,
`tau_cur = rho*Cdrag*speed^2`, `ksw = 30*z0`, `w = 2*pi/tp`,
`kh = qkhfs(w, wd)`, `Adelta = hs/(2*sinh(kh))`,
`Udelta = pi*hs/(tp*sinh(kh))`,
`fw = min(exp(-5.977 + 5.213*(Adelta/ksw)^(-0.194)), 0.3)`,
`tau_wave = 0.25*rho*fw*Udelta^2`,
`tau_cw = tau_cur*(1 + 1.2*(tau_wave/(tau_cur+tau_wave))^3.2)`,
`tau_cw_max = sqrt(tau_cur^2 + tau_wave^2 + 2*tau_cur*tau_wave*cos(0))`.
`none` means the source hits one of those IEEE edge cases on these inputs
(the unused `fw_soulsby` line is dead code and not modelled). -/
noncomputable def bedshearChk (current_speed depth hs tp : ℝ) :
    Option (ℝ × ℝ) :=
  (logChk |(|depth| / (1/1000))|).bind (fun lg =>
    (divChk (4/10) (lg - 1)).bind (fun cd =>
      (divChk (2 * Real.pi) tp).bind (fun w =>
        (qkhfsChk w |depth|).bind (fun kh =>
          (divChk hs (2 * Real.sinh kh)).bind (fun Adelta =>
            (divChk (Real.pi * hs) (tp * Real.sinh kh)).bind (fun Udelta =>
              (powChkNeg (-(194/1000)) (Adelta / (30 * (1/1000)))).bind (fun pw =>
                let tau_cur := 1027 * cd ^ 2 * current_speed ^ 2
                let fw := min (Real.exp (-(5977/1000) + (5213/1000) * pw)) (3/10)
                let tau_wave := (1/4) * 1027 * fw * Udelta ^ 2
                (divChk tau_wave (tau_cur + tau_wave)).bind (fun frac =>
                  some (tau_cur * (1 + (12/10) * frac ^ ((32/10) : ℝ)),
                    Real.sqrt (tau_cur ^ 2 + tau_wave ^ 2 +
                      2 * tau_cur * tau_wave * Real.cos 0))))))))))

/-- C1: coastline competency gating with a positive threshold.  For an active
on-land particle that is not newly seeded this step, with
`min_settlement_age_seconds > 0`: if its age is strictly below the threshold,
`interact_with_coastline` rolls its lon/lat back to
`previous_lon/previous_lat` (slot `ID - 1`) and clears its land-mask flag
while it stays active; if its age is at or above the threshold it is
deactivated with terminal status `settled_on_coast` at its on-land contact
position (lon/lat untouched). -/
theorem interact_with_coastline_not_new
    (minAge : ℚ) (firstSeeded : Option Nat) (prevLon prevLat : Nat → ℚ)
    (p : Particle) (L : Bool)
    (hnew : ∀ f, firstSeeded = some f → p.ID < f) :
    interact_with_coastline minAge firstSeeded prevLon prevLat p L =
      interact_with_coastline minAge none prevLon prevLat p L := by
  cases firstSeeded with
  | none => rfl
  | some f =>
    have hf : ¬ (L = true ∧ f ≤ p.ID) := fun h => absurd h.2 (Nat.not_le.mpr (hnew f rfl))
    unfold interact_with_coastline
    simp only [if_neg hf]

theorem claim_C1_coastline_competency_gating
    (minAge : ℚ) (firstSeeded : Option Nat) (prevLon prevLat : Nat → ℚ)
    (p : Particle) (hactive : p.status = Status.active)
    (hnew : ∀ f, firstSeeded = some f → p.ID < f)
    (hpos : 0 < minAge) :
    (p.age_seconds < minAge →
      interact_with_coastline minAge firstSeeded prevLon prevLat p true =
        (rollback prevLon prevLat p, false)) ∧
    (minAge ≤ p.age_seconds →
      interact_with_coastline minAge firstSeeded prevLon prevLat p true =
        ({ p with status := Status.settled_on_coast }, true)) := by
  rw [interact_with_coastline_not_new minAge firstSeeded prevLon prevLat p true hnew]
  unfold interact_with_coastline
  constructor
  · intro hyoung
    rw [if_pos rfl, if_neg (ne_of_gt hpos), if_pos hyoung]
  · intro hold
    rw [if_pos rfl, if_neg (ne_of_gt hpos), if_neg (not_lt.mpr hold)]
    unfold deactivate
    rw [if_pos hactive]

/-- C1 witness: the two branches at concrete inputs (age 100, thresholds 200
and 50). -/
theorem claim_C1_coastline_competency_gating_witness :
    interact_with_coastline 200 none prevLon0 prevLat0 pSample true =
      (rollback prevLon0 prevLat0 pSample, false) ∧
    interact_with_coastline 50 none prevLon0 prevLat0 pSample true =
      ({ pSample with status := Status.settled_on_coast }, true) :=
  ⟨(claim_C1_coastline_competency_gating 200 none prevLon0 prevLat0 pSample rfl
      (fun _ hf => Option.noConfusion hf) (by norm_num)).1 (by norm_num [pSample]),
   (claim_C1_coastline_competency_gating 50 none prevLon0 prevLat0 pSample rfl
      (fun _ hf => Option.noConfusion hf) (by norm_num)).2 (by norm_num [pSample])⟩

/-- C2: seafloor competency gating.  Bivalve variant
(`interact_with_seafloor`): an active particle strictly below the seafloor is
deactivated with terminal status `settled_on_bottom` when its age is at or
above `min_settlement_age_seconds`, and otherwise z-clamped to exactly
`-seafloor_depth` while staying active.  Sediment variant
(`bottom_interaction`, which has no competency configuration, i.e. the
threshold is the default 0 and every age qualifies): the particle instead
gets `moving := false` with its status untouched (it stays active) and its z
clamped to the seafloor. -/
theorem claim_C2_seafloor_competency_gating :
    (∀ (minAge d : ℚ) (p : Particle), p.status = Status.active → p.z < -d →
      ((minAge ≤ p.age_seconds →
          interact_with_seafloor minAge d p =
            { p with status := Status.settled_on_bottom }) ∧
        (p.age_seconds < minAge →
          interact_with_seafloor minAge d p = { p with z := -d }))) ∧
    (∀ (d : ℚ) (p : Particle), p.status = Status.active → p.z < -d →
      0 ≤ p.age_seconds →
      bottom_interaction (-d) d p = { p with z := -d, moving := false }) := by
  constructor
  · intro minAge d p hactive hbelow
    constructor
    · intro hold
      unfold interact_with_seafloor deactivate
      rw [if_pos hbelow, if_pos hold, if_pos hactive]
    · intro hyoung
      unfold interact_with_seafloor
      rw [if_pos hbelow, if_neg (not_le.mpr hyoung)]
  · intro d p _ hbelow _
    unfold bottom_interaction
    rw [if_pos hbelow]
    by_cases hm : p.moving = true
    · rw [if_pos ⟨le_refl _, hm⟩]
    · rw [if_neg (fun h => hm h.2)]
      have hm' : p.moving = false := by revert hm; cases p.moving <;> simp
      cases p
      simp_all

/-- C2 witness: both variants at concrete inputs (depth 1, particle at z = -2,
age 100; bivalve thresholds 50 and 200; sediment clamp and settle). -/
theorem claim_C2_seafloor_competency_gating_witness :
    interact_with_seafloor 50 1 pSample = { pSample with status := Status.settled_on_bottom } ∧
    interact_with_seafloor 200 1 pSample = { pSample with z := -1 } ∧
    bottom_interaction (-1) 1 pSample = { pSample with z := -1, moving := false } :=
  ⟨(claim_C2_seafloor_competency_gating.1 50 1 pSample rfl (by norm_num [pSample])).1
      (by norm_num [pSample]),
   (claim_C2_seafloor_competency_gating.1 200 1 pSample rfl (by norm_num [pSample])).2
      (by norm_num [pSample]),
   claim_C2_seafloor_competency_gating.2 1 pSample rfl (by norm_num [pSample])
      (by norm_num [pSample])⟩

theorem deactivate_status_ne (p : Particle) (r s : Status) (hs : ¬ s = r) :
    (deactivate p r).status = s → p.status = s := by
  unfold deactivate
  split_ifs with hp <;> intro h
  · exact absurd h.symm hs
  · exact h

theorem checkW_status (W : Option ℚ) (p : Particle) :
    (checkW W p).status = p.status ∨ (checkW W p).status = Status.outside := by
  unfold checkW deactivate
  rcases W with _ | w' <;> split_ifs <;> simp_all <;> split_ifs <;> simp_all

theorem checkE_status (E : Option ℚ) (p : Particle) :
    (checkE E p).status = p.status ∨ (checkE E p).status = Status.outside := by
  unfold checkE deactivate
  rcases E with _ | e' <;> split_ifs <;> simp_all <;> split_ifs <;> simp_all

theorem checkS_status (S : Option ℚ) (p : Particle) :
    (checkS S p).status = p.status ∨ (checkS S p).status = Status.outside := by
  unfold checkS deactivate
  rcases S with _ | s' <;> split_ifs <;> simp_all <;> split_ifs <;> simp_all

theorem checkN_status (N : Option ℚ) (p : Particle) :
    (checkN N p).status = p.status ∨ (checkN N p).status = Status.outside := by
  unfold checkN deactivate
  rcases N with _ | n' <;> split_ifs <;> simp_all <;> split_ifs <;> simp_all

theorem domain_checks_status (W E S N : Option ℚ) (p : Particle) (s : Status)
    (hs : ¬ s = Status.outside) :
    (checkN N (checkS S (checkE E (checkW W p)))).status = s → p.status = s := by
  intro h
  rcases checkN_status N (checkS S (checkE E (checkW W p))) with h4 | h4
  · rw [h4] at h
    rcases checkS_status S (checkE E (checkW W p)) with h3 | h3
    · rw [h3] at h
      rcases checkE_status E (checkW W p) with h2 | h2
      · rw [h2] at h
        rcases checkW_status W p with hW | hW
        · rw [hW] at h; exact h
        · rw [hW] at h; exact absurd h.symm hs
      · rw [h2] at h; exact absurd h.symm hs
    · rw [h3] at h; exact absurd h.symm hs
  · rw [h4] at h; exact absurd h.symm hs

theorem retire_status_ne (dt : ℚ) (ma : Option ℚ)
    (dom : Option (Option ℚ × Option ℚ × Option ℚ × Option ℚ)) (p : Particle)
    (s : Status) (h1 : ¬ s = Status.outside) (h2 : ¬ s = Status.died) :
    (increase_age_and_retire dt ma dom p).status = s → p.status = s := by
  unfold increase_age_and_retire
  rcases dom with _ | ⟨W, E, S, N⟩ <;> rcases ma with _ | m <;> dsimp only
  · exact fun h => h
  · split_ifs with hm
    · exact fun h => deactivate_status_ne
        { p with age_seconds := p.age_seconds + dt } Status.died s h2 h
    · exact fun h => h
  · intro h
    exact domain_checks_status W E S N
      { p with age_seconds := p.age_seconds + dt } s h1 h
  · intro h
    have hpb := domain_checks_status W E S N
      (if m ≤ p.age_seconds + dt
        then deactivate { p with age_seconds := p.age_seconds + dt } Status.died
        else { p with age_seconds := p.age_seconds + dt }) s h1 h
    revert hpb
    split_ifs with hm
    · exact fun hb => deactivate_status_ne
        { p with age_seconds := p.age_seconds + dt } Status.died s h2 hb
    · exact fun hb => hb

theorem coastline_status_ne (a : ℚ) (f : Option Nat) (pl pa : Nat → ℚ) (L : Bool)
    (p : Particle) (s : Status) (h1 : ¬ s = Status.seeded_on_land)
    (h2 : ¬ s = Status.settled_on_coast) :
    (interact_with_coastline a f pl pa p L).1.status = s → p.status = s := by
  unfold interact_with_coastline rollback deactivate
  rcases f with _ | k <;> dsimp only <;> split_ifs <;> simp_all <;>
    (intro h; first | exact h | exact absurd h.symm h1 | exact absurd h.symm h2)

theorem coastline_zero_status_ne (f : Option Nat) (pl pa : Nat → ℚ) (L : Bool)
    (p : Particle) (s : Status) (h1 : ¬ s = Status.seeded_on_land) :
    (interact_with_coastline 0 f pl pa p L).1.status = s → p.status = s := by
  unfold interact_with_coastline rollback deactivate
  rcases f with _ | k <;> dsimp only <;> split_ifs <;> simp_all <;>
    (intro h; first | exact h | exact absurd h.symm h1)

theorem seafloor_status_ne (a d : ℚ) (p : Particle) (s : Status)
    (h1 : ¬ s = Status.settled_on_bottom) :
    (interact_with_seafloor a d p).status = s → p.status = s := by
  unfold interact_with_seafloor deactivate
  split_ifs <;> simp_all <;> (intro h; first | exact h | exact absurd h.symm h1)

theorem bottom_status (sfd d : ℚ) (p : Particle) :
    (bottom_interaction sfd d p).status = p.status := by
  unfold bottom_interaction
  dsimp only
  split_ifs <;> simp_all

theorem resuspend_status (t d : ℚ) (p : Particle) :
    (sediment_resuspension_elem t d p).status = p.status := by
  unfold sediment_resuspension_elem
  split_ifs <;> simp_all

theorem sediment_retire_status_ne (ma : Option ℚ) (p : Particle) (s : Status)
    (h1 : ¬ s = Status.retired) :
    (sediment_retire ma p).status = s → p.status = s := by
  unfold sediment_retire deactivate
  rcases ma with _ | m <;> dsimp only
  · exact fun h => h
  · split_ifs <;> simp_all <;>
      (intro h; first | exact h | exact absurd h.symm h1)

/-- No operation of the core maps a particle whose status has left `active`
back to `active` (transitions out of `active` are one-directional). -/
theorem active_of_applyOp (op : CoreOp) (p : Particle) :
    (applyOp op p).status = Status.active → p.status = Status.active := by
  cases op with
  | coastline a f pl pa lm =>
    exact coastline_status_ne a f pl pa (lm p.ID) p Status.active
      (by decide) (by decide)
  | seafloor a d =>
    exact seafloor_status_ne a (d p.ID) p Status.active (by decide)
  | bottom sb db =>
    intro h
    rw [← bottom_status (sb p.ID) (db p.ID) p]
    exact h
  | resuspend t d =>
    intro h
    rw [← resuspend_status (t p.ID) (d p.ID) p]
    exact h
  | retireBivalve dt ma dom =>
    exact retire_status_ne dt ma dom p Status.active (by decide) (by decide)
  | retireSediment ma =>
    exact sediment_retire_status_ne ma p Status.active (by decide)

/-- C3: terminal-state monotonicity.  In the multi-step system (any sequence
of core entry-point invocations, with the spec-modelled framework behaviour
that deactivated particles are moved out of the working arrays into the
output record after each operation): a particle that has been recorded as
deactivated persists, with its exact state (status and position included),
through every further operation; and no operation ever maps a non-`active`
status back to `active`. -/
theorem claim_C3_terminal_state_monotonicity :
    (∀ (ops : List CoreOp) (s : SimState) (p : Particle),
        p ∈ s.recorded → p ∈ (runOps ops s).recorded) ∧
    (∀ (op : CoreOp) (p : Particle),
        (applyOp op p).status = Status.active → p.status = Status.active) := by
  constructor
  · intro ops
    induction ops with
    | nil => intro s p h; exact h
    | cons op rest ih =>
      intro s p h
      have hstep : p ∈ (stepOp op s).recorded := by
        unfold stepOp removeDeactivated
        exact List.mem_append_left _ h
      exact ih (stepOp op s) p hstep
  · exact active_of_applyOp

/-- C3 witness: the recorded dead particle survives a two-operation run
untouched, and the one-directionality instance at a concrete operation. -/
theorem claim_C3_terminal_state_monotonicity_witness :
    pDead ∈ (runOps [opCoast0, opSea0] s0).recorded ∧
    pSample.status = Status.active :=
  ⟨claim_C3_terminal_state_monotonicity.1 [opCoast0, opSea0] s0 pDead
      (by simp [s0]),
   claim_C3_terminal_state_monotonicity.2 opSea0 pSample
      (by norm_num [applyOp, opSea0, interact_with_seafloor, pSample])⟩

/-- C4: the resuspension controller.  With `drift:resuspension` enabled the
particle arrays are transformed elementwise; a particle is selected exactly
when `moving = false` and `tau_cw_max` strictly exceeds its
`critical_shear_stress`; every selected particle gets `z = -seafloor_depth
+ 0.01` and `moving = true` with its status untouched; every non-selected
particle (including `tau_cw_max` equal to the threshold) is left entirely
unchanged. -/
theorem claim_C4_resuspension_controller
    (cfg : Config) (tau d : Nat → ℚ) (ps : List Particle)
    (hen : cfg.resuspension = true) :
    (sediment_resuspension cfg tau d ps).2 =
      ps.map (fun p => sediment_resuspension_elem (tau p.ID) (d p.ID) p) ∧
    (∀ (t dd : ℚ) (p : Particle),
      (p.moving = false ∧ p.critical_shear_stress < t →
        sediment_resuspension_elem t dd p =
          { p with z := -dd + 1/100, moving := true }) ∧
      (¬ (p.moving = false ∧ p.critical_shear_stress < t) →
        sediment_resuspension_elem t dd p = p)) := by
  constructor
  · unfold sediment_resuspension
    rw [if_pos hen]
  · intro t dd p
    constructor
    · intro hsel
      unfold sediment_resuspension_elem
      rw [if_pos hsel]
    · intro hsel
      unfold sediment_resuspension_elem
      rw [if_neg hsel]

/-- C4 witness: the spec scenario.  A resting particle with
`critical_shear_stress = 0.1` under `tau_cw_max = 0.2` is lifted to
`-seafloor_depth + 0.01` and made movable; under `tau_cw_max = 0.05` it is
unchanged. -/
theorem claim_C4_resuspension_controller_witness :
    sediment_resuspension_elem (2/10) 5 pResting =
      { pResting with z := -5 + 1/100, moving := true } ∧
    sediment_resuspension_elem (1/20) 5 pResting = pResting :=
  ⟨((claim_C4_resuspension_controller cfgOn (fun _ => 2/10) (fun _ => 5) [] rfl).2
      (2/10) 5 pResting).1 (by norm_num [pResting]),
   ((claim_C4_resuspension_controller cfgOn (fun _ => 1/20) (fun _ => 5) [] rfl).2
      (1/20) 5 pResting).2 (by norm_num [pResting])⟩

theorem settled_coast_of_applyOp (op : CoreOp) (p : Particle)
    (hz : zeroAgeCoastline op) :
    (applyOp op p).status = Status.settled_on_coast →
      p.status = Status.settled_on_coast := by
  cases op with
  | coastline a f pl pa lm =>
    have ha : a = 0 := hz
    subst ha
    exact coastline_zero_status_ne f pl pa (lm p.ID) p Status.settled_on_coast
      (by decide)
  | seafloor a d =>
    exact seafloor_status_ne a (d p.ID) p Status.settled_on_coast (by decide)
  | bottom sb db =>
    intro h
    rw [← bottom_status (sb p.ID) (db p.ID) p]
    exact h
  | resuspend t d =>
    intro h
    rw [← resuspend_status (t p.ID) (d p.ID) p]
    exact h
  | retireBivalve dt ma dom =>
    exact retire_status_ne dt ma dom p Status.settled_on_coast
      (by decide) (by decide)
  | retireSediment ma =>
    exact sediment_retire_status_ne ma p Status.settled_on_coast (by decide)

theorem stepOp_no_coast (op : CoreOp) (s : SimState) (hz : zeroAgeCoastline op)
    (hw : ∀ p ∈ s.working, p.status ≠ Status.settled_on_coast)
    (hr : ∀ p ∈ s.recorded, p.status ≠ Status.settled_on_coast) :
    (∀ p ∈ (stepOp op s).working, p.status ≠ Status.settled_on_coast) ∧
    (∀ p ∈ (stepOp op s).recorded, p.status ≠ Status.settled_on_coast) := by
  have key : ∀ p ∈ s.working.map (applyOp op), p.status ≠ Status.settled_on_coast := by
    intro p hp
    rcases List.mem_map.mp hp with ⟨q, hq, rfl⟩
    intro hcoast
    exact hw q hq (settled_coast_of_applyOp op q hz hcoast)
  constructor
  · intro p hp
    unfold stepOp removeDeactivated at hp
    exact key p (List.mem_of_mem_filter hp)
  · intro p hp
    unfold stepOp removeDeactivated at hp
    rcases List.mem_append.mp hp with h | h
    · exact hr p h
    · exact key p (List.mem_of_mem_filter h)

/-- C5: zero-age coastline default.  With `min_settlement_age_seconds = 0`
every on-land particle that is not newly seeded this step is unconditionally
rolled back to `previous_lon/previous_lat` with its land-mask flag cleared
and its status untouched; and across any multi-step run whose coastline
invocations all use threshold 0, no particle ever acquires status
`settled_on_coast` (the `settled_on_coast` count stays zero). -/
theorem claim_C5_zero_age_default :
    (∀ (firstSeeded : Option Nat) (prevLon prevLat : Nat → ℚ) (p : Particle),
      (∀ f, firstSeeded = some f → p.ID < f) →
      interact_with_coastline 0 firstSeeded prevLon prevLat p true =
        (rollback prevLon prevLat p, false)) ∧
    (∀ (ops : List CoreOp) (s : SimState),
      (∀ op ∈ ops, zeroAgeCoastline op) →
      (∀ p ∈ s.working, p.status ≠ Status.settled_on_coast) →
      (∀ p ∈ s.recorded, p.status ≠ Status.settled_on_coast) →
      (∀ p ∈ (runOps ops s).working, p.status ≠ Status.settled_on_coast) ∧
      (∀ p ∈ (runOps ops s).recorded, p.status ≠ Status.settled_on_coast)) := by
  constructor
  · intro firstSeeded prevLon prevLat p hnew
    rw [interact_with_coastline_not_new 0 firstSeeded prevLon prevLat p true hnew]
    unfold interact_with_coastline
    rw [if_pos rfl, if_pos rfl]
  · intro ops
    induction ops with
    | nil => exact fun s _ hw hr => ⟨hw, hr⟩
    | cons op rest ih =>
      intro s hops hw hr
      have hz := hops op (List.mem_cons_self op rest)
      have hrest : ∀ o ∈ rest, zeroAgeCoastline o :=
        fun o ho => hops o (List.mem_cons_of_mem op ho)
      have hstep := stepOp_no_coast op s hz hw hr
      exact ih (stepOp op s) hrest hstep.1 hstep.2

/-- C5 witness: a concrete rollback at threshold 0 and a concrete one-step
run in which the `settled_on_coast` count stays zero. -/
theorem claim_C5_zero_age_default_witness :
    interact_with_coastline 0 none prevLon0 prevLat0 pSample true =
      (rollback prevLon0 prevLat0 pSample, false) ∧
    (∀ p ∈ (runOps [opCoast0] s0).working, p.status ≠ Status.settled_on_coast) :=
  ⟨claim_C5_zero_age_default.1 none prevLon0 prevLat0 pSample
      (fun _ hf => Option.noConfusion hf),
   (claim_C5_zero_age_default.2 [opCoast0] s0
      (by intro o ho; rw [List.mem_singleton] at ho; subst ho; exact rfl)
      (by intro p hp; simp [s0] at hp; subst hp; decide)
      (by intro p hp; simp [s0] at hp; subst hp; decide)).1⟩

/-- C6: newly-seeded-on-land bypass.  An active particle whose ID is at or
above the first ID seeded this step and whose position resolves to land is
deactivated with terminal status `seeded_on_land` by
`interact_with_coastline`, whatever its age and whatever the value of
`min_settlement_age_seconds`. -/
theorem claim_C6_newly_seeded_on_land
    (minAge : ℚ) (f : Nat) (prevLon prevLat : Nat → ℚ) (p : Particle)
    (hactive : p.status = Status.active) (hid : f ≤ p.ID) :
    (interact_with_coastline minAge (some f) prevLon prevLat p true).1.status =
      Status.seeded_on_land := by
  unfold interact_with_coastline rollback deactivate
  dsimp only
  split_ifs <;> simp_all

/-- C6 witness: a newly seeded on-land particle is `seeded_on_land` even
under a large threshold (here 1e6 with particle age 100). -/
theorem claim_C6_newly_seeded_on_land_witness :
    (interact_with_coastline 1000000 (some 2) prevLon0 prevLat0 pSample true).1.status =
      Status.seeded_on_land :=
  claim_C6_newly_seeded_on_land 1000000 2 prevLon0 prevLat0 pSample rfl
    (by norm_num [pSample])

/-- C9 counterexample: the claim says both variants use reason `died`, but
the sediment variant's maximum-age check (`SedimentDrift3D.update`,
`reason='retired'`) deactivates with `retired`, not `died`: a particle of
age 100 under `max_age_seconds = 5` ends with status `retired`. -/
theorem claim_C9_counterexample :
    (sediment_retire (some 5) pSample).status = Status.retired ∧
    ¬ (sediment_retire (some 5) pSample).status = Status.died := by
  decide

/-- C9 (amended): whenever a maximum age is configured and a particle's age
reaches or exceeds it, the age/retirement check deactivates the particle -
with terminal status `died` in the bivalve variant
(`increase_age_and_retire`), but with terminal status `retired` in the
sediment variant (`SedimentDrift3D.update`). -/
theorem checkW_nonactive (W : Option ℚ) (p : Particle)
    (h : ¬ p.status = Status.active) : checkW W p = p := by
  unfold checkW deactivate
  rcases W with _ | w' <;> dsimp only
  split_ifs <;> simp_all

theorem checkE_nonactive (E : Option ℚ) (p : Particle)
    (h : ¬ p.status = Status.active) : checkE E p = p := by
  unfold checkE deactivate
  rcases E with _ | e' <;> dsimp only
  split_ifs <;> simp_all

theorem checkS_nonactive (S : Option ℚ) (p : Particle)
    (h : ¬ p.status = Status.active) : checkS S p = p := by
  unfold checkS deactivate
  rcases S with _ | s' <;> dsimp only
  split_ifs <;> simp_all

theorem checkN_nonactive (N : Option ℚ) (p : Particle)
    (h : ¬ p.status = Status.active) : checkN N p = p := by
  unfold checkN deactivate
  rcases N with _ | n' <;> dsimp only
  split_ifs <;> simp_all

theorem claim_C9_max_age_retirement :
    (∀ (dt m : ℚ) (dom : Option (Option ℚ × Option ℚ × Option ℚ × Option ℚ))
        (p : Particle), p.status = Status.active → m ≤ p.age_seconds + dt →
      (increase_age_and_retire dt (some m) dom p).status = Status.died) ∧
    (∀ (m : ℚ) (p : Particle), p.status = Status.active → m ≤ p.age_seconds →
      (sediment_retire (some m) p).status = Status.retired) := by
  constructor
  · intro dt m dom p hactive hage
    unfold increase_age_and_retire
    have hd : (if m ≤ ({ p with age_seconds := p.age_seconds + dt } : Particle).age_seconds
        then deactivate { p with age_seconds := p.age_seconds + dt } Status.died
        else { p with age_seconds := p.age_seconds + dt }) =
        { p with age_seconds := p.age_seconds + dt, status := Status.died } := by
      rw [if_pos hage]
      unfold deactivate
      rw [if_pos hactive]
    have hna : ({ p with age_seconds := p.age_seconds + dt, status := Status.died } : Particle).status ≠ Status.active :=
      fun hc => Status.noConfusion hc
    rcases dom with _ | ⟨W, E, S, N⟩ <;> dsimp only
    · rw [hd]
    · rw [hd, checkW_nonactive W _ hna, checkE_nonactive E _ hna,
        checkS_nonactive S _ hna, checkN_nonactive N _ hna]
  · intro m p hactive hage
    unfold sediment_retire deactivate
    dsimp only
    rw [if_pos hage, if_pos hactive]

/-- C9 witness: both variants at a concrete particle (age 100, threshold 5,
step 10 s). -/
theorem claim_C9_max_age_retirement_witness :
    (increase_age_and_retire 10 (some 5) none pSample).status = Status.died ∧
    (sediment_retire (some 5) pSample).status = Status.retired :=
  ⟨claim_C9_max_age_retirement.1 10 5 none pSample rfl (by norm_num [pSample]),
   claim_C9_max_age_retirement.2 5 pSample rfl (by norm_num [pSample])⟩

/-- C10: configuration side effect of the per-step resuspension check.  When
`drift:resuspension` is enabled, `sediment_resuspension` overwrites the
configuration key `general:seafloor_action` with `lift_to_seafloor` on every
invocation, whatever the user configured; every other configuration key is
unchanged, and every particle not selected for resuspension is unchanged. -/
theorem claim_C10_resuspension_config_side_effect
    (cfg : Config) (tau d : Nat → ℚ) (ps : List Particle)
    (hen : cfg.resuspension = true) :
    (sediment_resuspension cfg tau d ps).1 =
      { cfg with seafloor_action := "lift_to_seafloor" } ∧
    (sediment_resuspension cfg tau d ps).1.coastline_action = cfg.coastline_action ∧
    (sediment_resuspension cfg tau d ps).1.vertical_mixing = cfg.vertical_mixing ∧
    (sediment_resuspension cfg tau d ps).1.vertical_advection = cfg.vertical_advection ∧
    (sediment_resuspension cfg tau d ps).1.resuspension = cfg.resuspension ∧
    (sediment_resuspension cfg tau d ps).1.max_age_seconds = cfg.max_age_seconds ∧
    (sediment_resuspension cfg tau d ps).1.min_settlement_age_seconds =
      cfg.min_settlement_age_seconds ∧
    (∀ p : Particle, ¬ (p.moving = false ∧ p.critical_shear_stress < tau p.ID) →
      sediment_resuspension_elem (tau p.ID) (d p.ID) p = p) := by
  unfold sediment_resuspension
  rw [if_pos hen]
  refine ⟨rfl, rfl, rfl, rfl, rfl, rfl, rfl, ?_⟩
  intro p hsel
  unfold sediment_resuspension_elem
  rw [if_neg hsel]

/-- C10 witness: a concrete enabled configuration has its seafloor action
overwritten and nothing else changed; a non-selected particle is unchanged. -/
theorem claim_C10_resuspension_config_side_effect_witness :
    (sediment_resuspension cfgOn (fun _ => 1/20) (fun _ => 5) [pSample]).1 =
      { cfgOn with seafloor_action := "lift_to_seafloor" } ∧
    sediment_resuspension_elem ((fun _ : Nat => (1:ℚ)/20) pSample.ID)
      ((fun _ : Nat => (5:ℚ)) pSample.ID) pSample = pSample :=
  ⟨(claim_C10_resuspension_config_side_effect cfgOn (fun _ => 1/20) (fun _ => 5)
      [pSample] rfl).1,
   (claim_C10_resuspension_config_side_effect cfgOn (fun _ => 1/20) (fun _ => 5)
      [pSample] rfl).2.2.2.2.2.2.2 pSample (by norm_num [pSample])⟩

/-- C7 (code bug): the numeric edge cases are NOT guarded.  At water depth 0
(the declared fallback value of `sea_floor_depth_below_sea_level` in
`SedimentDrift3D.required_variables`) the drag computation takes `log(0)`,
and at `h = 0` the dispersion solver's first correction step divides by
`tanh(0) + 0*(1 - tanh(0)^2) = 0`: the instrumented embeddings return `none`
(numpy would produce `-inf`/`nan` and propagate them into the stresses)
instead of the clamped "no stress" outcome the spec requires. -/
theorem claim_C7_numeric_edges_unguarded :
    qkhfsChk 1 0 = none ∧ bedshearChk (3/10) 0 0 1 = none := by
  constructor
  · unfold qkhfsChk newtonChk divChk
    norm_num [Real.tanh_zero, Real.sqrt_zero]
  · unfold bedshearChk logChk
    norm_num


theorem tanh_eq_exp_sq (y : ℝ) :
    Real.tanh y = (Real.exp y ^ 2 - 1) / (Real.exp y ^ 2 + 1) := by
  rw [Real.tanh_eq_sinh_div_cosh, Real.sinh_eq, Real.cosh_eq, Real.exp_neg]
  have h := Real.exp_ne_zero y
  have h2 : Real.exp y + (Real.exp y)⁻¹ ≠ 0 := by positivity
  field_simp
  ring

theorem tanh_mono {a b : ℝ} (h : a ≤ b) : Real.tanh a ≤ Real.tanh b := by
  rw [tanh_eq_exp_sq, tanh_eq_exp_sq]
  have ha : 0 < Real.exp a := Real.exp_pos a
  have hb : 0 < Real.exp b := Real.exp_pos b
  have hab : Real.exp a ≤ Real.exp b := Real.exp_le_exp.mpr h
  rw [div_le_div_iff₀ (by positivity) (by positivity)]
  nlinarith

theorem tanh_bounds_of_exp {y L U : ℝ} (hL0 : 0 < L)
    (hL : L ≤ Real.exp y) (hU : Real.exp y ≤ U) :
    (L ^ 2 - 1) / (L ^ 2 + 1) ≤ Real.tanh y ∧
    Real.tanh y ≤ (U ^ 2 - 1) / (U ^ 2 + 1) := by
  rw [tanh_eq_exp_sq]
  have hE : 0 < Real.exp y := Real.exp_pos y
  have hU0 : 0 < U := lt_of_lt_of_le hE hU
  constructor
  · rw [div_le_div_iff₀ (by positivity) (by positivity)]
    nlinarith
  · rw [div_le_div_iff₀ (by positivity) (by positivity)]
    nlinarith

theorem newton_box_facts (x y ylo yhi tlo thi : ℝ)
    (hy1 : ylo ≤ y) (hy2 : y ≤ yhi)
    (ht1 : tlo ≤ Real.tanh y) (ht2 : Real.tanh y ≤ thi)
    (hy0 : 0 < ylo) (ht0 : 0 < tlo) (hthi : thi ≤ 1) :
    (ylo * tlo - x ≤ y * Real.tanh y - x ∧
     y * Real.tanh y - x ≤ yhi * thi - x) ∧
    (tlo + ylo * (1 - thi ^ 2) ≤
        Real.tanh y + y * (1 - Real.tanh y ^ 2) ∧
     Real.tanh y + y * (1 - Real.tanh y ^ 2) ≤ thi + yhi * (1 - tlo ^ 2)) ∧
    0 < tlo + ylo * (1 - thi ^ 2) := by
  set t := Real.tanh y with htdef
  have htpos : 0 < t := lt_of_lt_of_le ht0 ht1
  have htle1 : t ≤ 1 := le_trans ht2 hthi
  have hypos : 0 < y := lt_of_lt_of_le hy0 hy1
  have hyhipos : 0 < yhi := lt_of_lt_of_le hypos hy2
  have hthipos : 0 < thi := lt_of_lt_of_le htpos ht2
  have htlosq : tlo ^ 2 ≤ t ^ 2 := pow_le_pow_left₀ ht0.le ht1 2
  have ht2sq : t ^ 2 ≤ thi ^ 2 := pow_le_pow_left₀ htpos.le ht2 2
  have ht1sq : t ^ 2 ≤ 1 := by
    have := pow_le_pow_left₀ htpos.le htle1 2
    simpa using this
  have hthisq : thi ^ 2 ≤ 1 := by
    have := pow_le_pow_left₀ hthipos.le hthi 2
    simpa using this
  refine ⟨⟨?_, ?_⟩, ⟨?_, ?_⟩, ?_⟩
  · nlinarith [mul_nonneg (sub_nonneg.mpr hy1) htpos.le,
      mul_nonneg hy0.le (sub_nonneg.mpr ht1)]
  · nlinarith [mul_nonneg (sub_nonneg.mpr hy2) htpos.le,
      mul_nonneg hypos.le (sub_nonneg.mpr ht2)]
  · nlinarith [mul_nonneg (sub_nonneg.mpr hy1) (by linarith : (0:ℝ) ≤ 1 - t ^ 2),
      mul_nonneg hy0.le (by linarith : (0:ℝ) ≤ thi ^ 2 - t ^ 2)]
  · nlinarith [mul_nonneg (sub_nonneg.mpr hy2) (by linarith : (0:ℝ) ≤ 1 - t ^ 2),
      mul_nonneg hyhipos.le (by linarith : (0:ℝ) ≤ t ^ 2 - tlo ^ 2)]
  · nlinarith [mul_nonneg hy0.le (by linarith : (0:ℝ) ≤ 1 - thi ^ 2)]

theorem newtonKh_mem_of_neg (x y ylo yhi tlo thi : ℝ)
    (hy1 : ylo ≤ y) (hy2 : y ≤ yhi)
    (ht1 : tlo ≤ Real.tanh y) (ht2 : Real.tanh y ≤ thi)
    (hy0 : 0 < ylo) (ht0 : 0 < tlo) (hthi : thi ≤ 1)
    (hNhi : yhi * thi - x ≤ 0) :
    ylo - (yhi * thi - x) / (thi + yhi * (1 - tlo ^ 2)) ≤ newtonKh x y ∧
    newtonKh x y ≤ yhi - (ylo * tlo - x) / (tlo + ylo * (1 - thi ^ 2)) := by
  obtain ⟨⟨hN1, hN2⟩, ⟨hD1, hD2⟩, hDlo0⟩ :=
    newton_box_facts x y ylo yhi tlo thi hy1 hy2 ht1 ht2 hy0 ht0 hthi
  set t := Real.tanh y with htdef
  have hD0 : 0 < t + y * (1 - t ^ 2) := lt_of_lt_of_le hDlo0 hD1
  have hDhi0 : 0 < thi + yhi * (1 - tlo ^ 2) := lt_of_lt_of_le hD0 hD2
  have hQ1 : (ylo * tlo - x) / (tlo + ylo * (1 - thi ^ 2)) ≤
      (y * t - x) / (t + y * (1 - t ^ 2)) := by
    have h1 : (0:ℝ) ≤ -(ylo * tlo - x) := by linarith
    have h2 : -(y * t - x) ≤ -(ylo * tlo - x) := by linarith
    have h3 := div_le_div₀ h1 h2 hDlo0 hD1
    rw [neg_div, neg_div] at h3
    linarith
  have hQ2 : (y * t - x) / (t + y * (1 - t ^ 2)) ≤
      (yhi * thi - x) / (thi + yhi * (1 - tlo ^ 2)) := by
    have h1 : (0:ℝ) ≤ -(y * t - x) := by linarith
    have h2 : -(yhi * thi - x) ≤ -(y * t - x) := by linarith
    have h3 := div_le_div₀ h1 h2 hD0 hD2
    rw [neg_div, neg_div] at h3
    linarith
  unfold newtonKh
  rw [← htdef]
  constructor <;> linarith

theorem newtonKh_mem_of_pos (x y ylo yhi tlo thi : ℝ)
    (hy1 : ylo ≤ y) (hy2 : y ≤ yhi)
    (ht1 : tlo ≤ Real.tanh y) (ht2 : Real.tanh y ≤ thi)
    (hy0 : 0 < ylo) (ht0 : 0 < tlo) (hthi : thi ≤ 1)
    (hNlo : 0 ≤ ylo * tlo - x) :
    ylo - (yhi * thi - x) / (tlo + ylo * (1 - thi ^ 2)) ≤ newtonKh x y ∧
    newtonKh x y ≤ yhi - (ylo * tlo - x) / (thi + yhi * (1 - tlo ^ 2)) := by
  obtain ⟨⟨hN1, hN2⟩, ⟨hD1, hD2⟩, hDlo0⟩ :=
    newton_box_facts x y ylo yhi tlo thi hy1 hy2 ht1 ht2 hy0 ht0 hthi
  set t := Real.tanh y with htdef
  have hD0 : 0 < t + y * (1 - t ^ 2) := lt_of_lt_of_le hDlo0 hD1
  have hDhi0 : 0 < thi + yhi * (1 - tlo ^ 2) := lt_of_lt_of_le hD0 hD2
  have hQ1 : (ylo * tlo - x) / (thi + yhi * (1 - tlo ^ 2)) ≤
      (y * t - x) / (t + y * (1 - t ^ 2)) :=
    div_le_div₀ (by linarith) hN1 hD0 hD2
  have hQ2 : (y * t - x) / (t + y * (1 - t ^ 2)) ≤
      (yhi * thi - x) / (tlo + ylo * (1 - thi ^ 2)) :=
    div_le_div₀ (by linarith) hN2 hDlo0 hD1
  unfold newtonKh
  rw [← htdef]
  constructor <;> linarith

theorem exp_07_mem :
    (2.01375270747047651836049 : ℝ) ≤ Real.exp (7/10) ∧
    Real.exp (7/10) ≤ 2.0137527074704765243605 := by
  have h := Real.exp_bound (x := ((7:ℝ)/10))
    (abs_le.mpr ⟨by norm_num, by norm_num⟩) (n := 18) (by norm_num)
  rw [abs_le, show |((7:ℝ)/10)| = (7/10) from by norm_num] at h
  norm_num [Finset.sum_range_succ, Nat.factorial] at h
  constructor <;> linarith [h.1, h.2]

theorem exp_y1lo_mem :
    (2.14649167627091209059345 : ℝ) ≤ Real.exp 0.76383473086033666544212 ∧
    Real.exp 0.76383473086033666544212 ≤ 2.14649167627091209659346 := by
  have h := Real.exp_bound (x := ((0.76383473086033666544212 : ℝ)))
    (abs_le.mpr ⟨by norm_num, by norm_num⟩) (n := 18) (by norm_num)
  rw [abs_le, show |((0.76383473086033666544212 : ℝ))| = 0.76383473086033666544212 from by norm_num] at h
  norm_num [Finset.sum_range_succ, Nat.factorial] at h
  constructor <;> linarith [h.1, h.2]

theorem exp_y1hi_mem :
    (2.14649167627091209375939 : ℝ) ≤ Real.exp 0.76383473086033666691706 ∧
    Real.exp 0.76383473086033666691706 ≤ 2.1464916762709120997594 := by
  have h := Real.exp_bound (x := ((0.76383473086033666691706 : ℝ)))
    (abs_le.mpr ⟨by norm_num, by norm_num⟩) (n := 18) (by norm_num)
  rw [abs_le, show |((0.76383473086033666691706 : ℝ))| = 0.76383473086033666691706 from by norm_num] at h
  norm_num [Finset.sum_range_succ, Nat.factorial] at h
  constructor <;> linarith [h.1, h.2]

theorem exp_y2lo_mem :
    (2.14374320273721556417801 : ℝ) ≤ Real.exp 0.76255346119225964632552 ∧
    Real.exp 0.76255346119225964632552 ≤ 2.14374320273721557017802 := by
  have h := Real.exp_bound (x := ((0.76255346119225964632552 : ℝ)))
    (abs_le.mpr ⟨by norm_num, by norm_num⟩) (n := 18) (by norm_num)
  rw [abs_le, show |((0.76255346119225964632552 : ℝ))| = 0.76255346119225964632552 from by norm_num] at h
  norm_num [Finset.sum_range_succ, Nat.factorial] at h
  constructor <;> linarith [h.1, h.2]

theorem exp_y2hi_mem :
    (2.14374320273721557297544 : ℝ) ≤ Real.exp 0.76255346119225965042929 ∧
    Real.exp 0.76255346119225965042929 ≤ 2.14374320273721557897545 := by
  have h := Real.exp_bound (x := ((0.76255346119225965042929 : ℝ)))
    (abs_le.mpr ⟨by norm_num, by norm_num⟩) (n := 18) (by norm_num)
  rw [abs_le, show |((0.76255346119225965042929 : ℝ))| = 0.76255346119225965042929 from by norm_num] at h
  norm_num [Finset.sum_range_succ, Nat.factorial] at h
  constructor <;> linarith [h.1, h.2]

theorem exp_y3lo_mem :
    (2.14374223907209569437456 : ℝ) ≤ Real.exp 0.76255301166764530120732 ∧
    Real.exp 0.76255301166764530120732 ≤ 2.14374223907209570037457 := by
  have h := Real.exp_bound (x := ((0.76255301166764530120732 : ℝ)))
    (abs_le.mpr ⟨by norm_num, by norm_num⟩) (n := 18) (by norm_num)
  rw [abs_le, show |((0.76255301166764530120732 : ℝ))| = 0.76255301166764530120732 from by norm_num] at h
  norm_num [Finset.sum_range_succ, Nat.factorial] at h
  constructor <;> linarith [h.1, h.2]

theorem exp_y3hi_mem :
    (2.14374223907209571443322 : ℝ) ≤ Real.exp 0.76255301166764531056416 ∧
    Real.exp 0.76255301166764531056416 ≤ 2.14374223907209572043323 := by
  have h := Real.exp_bound (x := ((0.76255301166764531056416 : ℝ)))
    (abs_le.mpr ⟨by norm_num, by norm_num⟩) (n := 18) (by norm_num)
  rw [abs_le, show |((0.76255301166764531056416 : ℝ))| = 0.76255301166764531056416 from by norm_num] at h
  norm_num [Finset.sum_range_succ, Nat.factorial] at h
  constructor <;> linarith [h.1, h.2]

theorem tanh_y0_mem :
    (0.60436777711716349527984 : ℝ) ≤ Real.tanh (7/10) ∧ Real.tanh (7/10) ≤ 0.60436777711716349717107 := by
  have hb := tanh_bounds_of_exp (y := ((7:ℝ)/10)) (by norm_num)
    exp_07_mem.1 exp_07_mem.2
  exact ⟨le_trans (by norm_num) hb.1, le_trans hb.2 (by norm_num)⟩

theorem kh49_y1_mem :
    (0.76383473086033666544212 : ℝ) ≤ newtonKh (49/100) (7/10) ∧
    newtonKh (49/100) (7/10) ≤ 0.76383473086033666691706 := by
  have ht := tanh_y0_mem
  have h := newtonKh_mem_of_neg (49/100) ((7/10)) (7/10) (7/10) 0.60436777711716349527984 0.60436777711716349717107
    le_rfl le_rfl ht.1 ht.2 (by norm_num) (by norm_num) (by norm_num) (by norm_num)
  exact ⟨le_trans (by norm_num) h.1, le_trans h.2 (by norm_num)⟩

theorem tanh_y1_mem :
    (0.64333014544440827216904 : ℝ) ≤ Real.tanh (newtonKh (49/100) (7/10)) ∧
    Real.tanh (newtonKh (49/100) (7/10)) ≤ 0.64333014544440827467192 := by
  have hy := kh49_y1_mem
  have hlo := (tanh_bounds_of_exp (y := (0.76383473086033666544212 : ℝ)) (by norm_num)
    exp_y1lo_mem.1 exp_y1lo_mem.2).1
  have hhi := (tanh_bounds_of_exp (y := (0.76383473086033666691706 : ℝ)) (by norm_num)
    exp_y1hi_mem.1 exp_y1hi_mem.2).2
  constructor
  · exact le_trans (le_trans (by norm_num) hlo) (tanh_mono hy.1)
  · exact le_trans (tanh_mono hy.2) (le_trans hhi (by norm_num))

theorem kh49_y2_mem :
    (0.76255346119225964632552 : ℝ) ≤ newtonKh (49/100) (newtonKh (49/100) (7/10)) ∧
    newtonKh (49/100) (newtonKh (49/100) (7/10)) ≤ 0.76255346119225965042929 := by
  have hy := kh49_y1_mem
  have ht := tanh_y1_mem
  have h := newtonKh_mem_of_pos (49/100) (newtonKh (49/100) (7/10)) 0.76383473086033666544212 0.76383473086033666691706 0.64333014544440827216904 0.64333014544440827467192
    hy.1 hy.2 ht.1 ht.2 (by norm_num) (by norm_num) (by norm_num) (by norm_num)
  exact ⟨le_trans (by norm_num) h.1, le_trans h.2 (by norm_num)⟩

theorem tanh_y2_mem :
    (0.64257854044262354757315 : ℝ) ≤ Real.tanh (newtonKh (49/100) (newtonKh (49/100) (7/10))) ∧
    Real.tanh (newtonKh (49/100) (newtonKh (49/100) (7/10))) ≤ 0.64257854044262355162564 := by
  have hy := kh49_y2_mem
  have hlo := (tanh_bounds_of_exp (y := (0.76255346119225964632552 : ℝ)) (by norm_num)
    exp_y2lo_mem.1 exp_y2lo_mem.2).1
  have hhi := (tanh_bounds_of_exp (y := (0.76255346119225965042929 : ℝ)) (by norm_num)
    exp_y2hi_mem.1 exp_y2hi_mem.2).2
  constructor
  · exact le_trans (le_trans (by norm_num) hlo) (tanh_mono hy.1)
  · exact le_trans (tanh_mono hy.2) (le_trans hhi (by norm_num))

theorem kh49_y3_mem :
    (0.76255301166764530120732 : ℝ) ≤ newtonKh (49/100) (newtonKh (49/100) (newtonKh (49/100) (7/10))) ∧
    newtonKh (49/100) (newtonKh (49/100) (newtonKh (49/100) (7/10))) ≤ 0.76255301166764531056416 := by
  have hy := kh49_y2_mem
  have ht := tanh_y2_mem
  have h := newtonKh_mem_of_pos (49/100) (newtonKh (49/100) (newtonKh (49/100) (7/10))) 0.76255346119225964632552 0.76255346119225965042929 0.64257854044262354757315 0.64257854044262355162564
    hy.1 hy.2 ht.1 ht.2 (by norm_num) (by norm_num) (by norm_num) (by norm_num)
  exact ⟨le_trans (by norm_num) h.1, le_trans h.2 (by norm_num)⟩

theorem tanh_y3_mem :
    (0.64257827652987410633452 : ℝ) ≤ Real.tanh (newtonKh (49/100) (newtonKh (49/100) (newtonKh (49/100) (7/10)))) ∧
    Real.tanh (newtonKh (49/100) (newtonKh (49/100) (newtonKh (49/100) (7/10)))) ≤ 0.64257827652987411347106 := by
  have hy := kh49_y3_mem
  have hlo := (tanh_bounds_of_exp (y := (0.76255301166764530120732 : ℝ)) (by norm_num)
    exp_y3lo_mem.1 exp_y3lo_mem.2).1
  have hhi := (tanh_bounds_of_exp (y := (0.76255301166764531056416 : ℝ)) (by norm_num)
    exp_y3hi_mem.1 exp_y3hi_mem.2).2
  constructor
  · exact le_trans (le_trans (by norm_num) hlo) (tanh_mono hy.1)
  · exact le_trans (tanh_mono hy.2) (le_trans hhi (by norm_num))

theorem kh49_mem :
    (0.76255301166764530120732 : ℝ) ≤ kh49 ∧ kh49 ≤ 0.76255301166764531056416 := by
  unfold kh49
  exact kh49_y3_mem

theorem tanh_kh49_mem :
    (0.64257827652987410633452 : ℝ) ≤ Real.tanh kh49 ∧
    Real.tanh kh49 ≤ 0.64257827652987411347106 := by
  unfold kh49
  exact tanh_y3_mem

theorem kh49_F_mem :
    (6/10 ^ 14 : ℝ) ≤ kh49 * Real.tanh kh49 - 49/100 ∧
    kh49 * Real.tanh kh49 - 49/100 ≤ 7/10 ^ 14 := by
  have hy := kh49_mem
  have ht := tanh_kh49_mem
  have h1 : (0.76255301166764530120732 : ℝ) * 0.64257827652987410633452 ≤ kh49 * Real.tanh kh49 :=
    mul_le_mul hy.1 ht.1 (by norm_num) (le_trans (by norm_num) hy.1)
  have h2 : kh49 * Real.tanh kh49 ≤ (0.76255301166764531056416 : ℝ) * 0.64257827652987411347106 :=
    mul_le_mul hy.2 ht.2 (le_trans (by norm_num) ht.1) (by norm_num)
  constructor
  · have hc : (6/10 ^ 14 : ℝ) + 49/100 ≤ (0.76255301166764530120732 : ℝ) * 0.64257827652987410633452 := by norm_num
    linarith
  · have hc : ((0.76255301166764531056416 : ℝ) * 0.64257827652987411347106) ≤ 7/10 ^ 14 + 49/100 := by norm_num
    linarith

theorem qkhfs_eq_kh49 (w h : ℝ) (hx : w ^ 2 * h / 9.81 = 49/100) :
    qkhfs w h = kh49 := by
  have hs : Real.sqrt (49/100) = 7/10 := by
    rw [show ((49:ℝ)/100) = (7/10) ^ 2 from by norm_num,
      Real.sqrt_sq (by norm_num : (0:ℝ) ≤ 7/10)]
  unfold qkhfs kh49
  rw [hx, if_pos (by norm_num : (49:ℝ)/100 < 1), hs]

/-- C8 counterexample: the dispersion round-trip tolerance does NOT hold for
every pair `(w, h)` with `w, h > 0`.  At `h = 1e-9` and
`w = sqrt(9.81 * 0.49 * 1e9)` (so that `x = w^2*h/g = 0.49` exactly), the
solver returns `kh49` with `kh49*tanh(kh49) - x` in `[6e-14, 7e-14]`, and the
residual `|w^2 - g*(kh/h)*tanh(kh)| = (g/h)*|x - kh*tanh(kh)|` is at least
`9.81e9 * 6e-14 > 5e-4`, five orders of magnitude beyond the claimed 1e-9. -/
theorem claim_C8_dispersion_roundtrip_counterexample :
    0 < ((1:ℝ)/10 ^ 9) ∧ 0 < Real.sqrt (9.81 * (49/100) * 10 ^ 9) ∧
    ¬ (|Real.sqrt (9.81 * (49/100) * 10 ^ 9) ^ 2 -
        9.81 * (qkhfs (Real.sqrt (9.81 * (49/100) * 10 ^ 9)) (1/10 ^ 9) / (1/10 ^ 9)) *
          Real.tanh (qkhfs (Real.sqrt (9.81 * (49/100) * 10 ^ 9)) (1/10 ^ 9))| ≤
        1/10 ^ 9) := by
  have hw2 : Real.sqrt (9.81 * (49/100) * 10 ^ 9) ^ 2 = 9.81 * (49/100) * 10 ^ 9 :=
    Real.sq_sqrt (by norm_num)
  have hq : qkhfs (Real.sqrt (9.81 * (49/100) * 10 ^ 9)) (1/10 ^ 9) = kh49 :=
    qkhfs_eq_kh49 _ _ (by rw [hw2]; norm_num)
  refine ⟨by norm_num, Real.sqrt_pos.mpr (by norm_num), ?_⟩
  intro habs
  rw [hq, hw2] at habs
  have hexp : 9.81 * (kh49 / (1/10 ^ 9)) * Real.tanh kh49 =
      9.81 * 10 ^ 9 * (kh49 * Real.tanh kh49) := by ring
  rw [hexp, abs_le] at habs
  have hF := kh49_F_mem
  linarith [habs.1, habs.2, hF.1, hF.2]

/-- C8 (amended): `qkhfs` seeds `sqrt(x)` for `x < 1` and `x` otherwise and
applies exactly three fixed Newton-style correction steps with no convergence
check (this is the definition of the embedding, mirroring the source); the
returned `kh` satisfies the dispersion relation to within 1e-9 for moderate
parameters - here the pair `w = sqrt(9.81*0.49)`, `h = 1`, where the residual
is `9.81*|F| ≤ 6.9e-13` - but not for every `(w, h)` with `w, h > 0`, because
the residual scales like `g/h` times the fixed nonzero Newton defect `F(x)`
(see the counterexample). -/
theorem claim_C8_dispersion_roundtrip :
    |Real.sqrt (9.81 * (49/100)) ^ 2 -
      9.81 * (qkhfs (Real.sqrt (9.81 * (49/100))) 1 / 1) *
        Real.tanh (qkhfs (Real.sqrt (9.81 * (49/100))) 1)| ≤ 1/10 ^ 9 := by
  have hw2 : Real.sqrt (9.81 * (49/100)) ^ 2 = 9.81 * (49/100) :=
    Real.sq_sqrt (by norm_num)
  have hq : qkhfs (Real.sqrt (9.81 * (49/100))) 1 = kh49 :=
    qkhfs_eq_kh49 _ _ (by rw [hw2]; norm_num)
  rw [hq, hw2]
  have hexp : 9.81 * (kh49 / 1) * Real.tanh kh49 =
      9.81 * (kh49 * Real.tanh kh49) := by ring
  rw [hexp, abs_le]
  have hF := kh49_F_mem
  constructor <;> linarith [hF.1, hF.2]

end Opendrift
